import Mathlib

/-!
Verification of the ICS-Watchtower normalization, filtering and aggregation
layer (src/filters.py, src/web_app.py, src/main.py, src/config.py).

Representation conventions for the shallow embedding:
- Python dict records are embedded as Lean structures.  A field that the code
  reads with a defaulting access of the form d.get(key, dflt) is represented
  directly by its post-default value (absent list fields become [], absent
  string fields become "", absent scores become 0), except where the default
  is not the empty value, in which case the field is an Option
  (Kev.knownRansomwareCampaignUse, Desc.lang).
- Python floats are embedded as rationals.
- The two feed shapes are a structural union VulnRecord; the Python shape
  test ("cve" in cve_obj) corresponds to the constructor.
- Totality of the accessors over arbitrary (untyped, possibly malformed)
  dictionaries is treated separately with an untyped value model PyVal that
  tracks Python exception semantics.
-/

namespace ICSW

/-- One element of the descriptions array of an NVD CVE object.  The code
reads desc.get("lang") with default None and desc.get("value", ""). -/
structure Desc where
  lang : Option String
  value : String

/-- The cvssData object of one metric entry; baseScore read with default 0.0. -/
structure CvssData where
  baseScore : Rat

/-- One entry of a cvssMetricV31 / V30 / V2 list. -/
structure MetricEntry where
  cvssData : CvssData

/-- The metrics mapping of an NVD CVE object; each scheme list read with
default []. -/
structure Metrics where
  cvssMetricV31 : List MetricEntry
  cvssMetricV30 : List MetricEntry
  cvssMetricV2 : List MetricEntry

/-- One element of a cpeMatch list; criteria read with default "". -/
structure CpeMatch where
  criteria : String

/-- A configurations node: a cpeMatch list and a list of child nodes.  The
source walks a node and the cpeMatch lists of its direct children only. -/
inductive CNode where
  | node (cpeMatch : List CpeMatch) (children : List CNode)

/-- The cpeMatch list of a node. -/
def CNode.cpeMatch : CNode → List CpeMatch
  | .node m _ => m

/-- The children list of a node. -/
def CNode.children : CNode → List CNode
  | .node _ c => c

/-- One element of the configurations array. -/
structure Config where
  nodes : List CNode

/-- The nested cve object of an NVD record (the CatalogEntry variant). -/
structure Cve where
  id : String
  descriptions : List Desc
  configurations : List Config
  metrics : Metrics
  published : String

/-- A CISA KEV entry (the ExploitedEntry variant); all string fields are
read by the code with default "" except knownRansomwareCampaignUse which
defaults to "Unknown" and is therefore kept optional. -/
structure Kev where
  cveID : String
  vendorProject : String
  product : String
  vulnerabilityName : String
  description : String
  dateAdded : String
  dueDate : String
  knownRansomwareCampaignUse : Option String
  notes : String

/-- The union of the two feed record shapes.  The nvd constructor corresponds
to a dict containing the key "cve"; the kev constructor to one without it. -/
inductive VulnRecord where
  | nvd (cve : Cve)
  | kev (entry : Kev)

/-- The Python shape test: "cve" in cve_obj. -/
def isNvdRecord : VulnRecord → Bool
  | .nvd _ => true
  | .kev _ => false

/-- filters.get_cve_id: nested cve.id for NVD records, cveID for KEV records. -/
def get_cve_id : VulnRecord → String
  | .nvd c => c.id
  | .kev k => k.cveID

/-- filters._extract_nvd_description: first English entry of descriptions,
else the first entry, else "". -/
def _extract_nvd_description (c : Cve) : String :=
  match c.descriptions.find? (fun desc => desc.lang == some "en") with
  | some desc => desc.value
  | none =>
    match c.descriptions with
    | desc :: _ => desc.value
    | [] => ""

/-- filters.get_nvd_description: public wrapper. -/
def get_nvd_description (c : Cve) : String :=
  _extract_nvd_description c

/-- The base score of the first entry of a scheme list, 0 when the list is
empty.  In the source each scheme is probed as: if the list is truthy, read
entry [0], then return the score if it is truthy; an empty list and a first
entry with a zero (or defaulted-absent) base score fall through identically,
which is exactly firstEntryBaseScore = 0. -/
def firstEntryBaseScore (entries : List MetricEntry) : Rat :=
  match entries with
  | [] => 0
  | m :: _ => m.cvssData.baseScore

/-- filters._get_nvd_cvss_score: probe cvssMetricV31, then cvssMetricV30,
then cvssMetricV2; under each scheme only entry [0] is consulted and its
score returned when non-zero; 0.0 when every probe falls through. -/
def _get_nvd_cvss_score (c : Cve) : Rat :=
  let s31 := firstEntryBaseScore c.metrics.cvssMetricV31
  if s31 ≠ 0 then s31
  else
    let s30 := firstEntryBaseScore c.metrics.cvssMetricV30
    if s30 ≠ 0 then s30
    else
      let s2 := firstEntryBaseScore c.metrics.cvssMetricV2
      if s2 ≠ 0 then s2
      else 0

/-- filters.get_cvss_score: 0.0 for records without the "cve" key (KEV
entries carry no score), else the NVD score. -/
def get_cvss_score : VulnRecord → Rat
  | .kev _ => 0
  | .nvd c => _get_nvd_cvss_score c

/-- filters.get_severity_rating: tier thresholds from the source. -/
def get_severity_rating (cvss_score : Rat) : String :=
  if cvss_score = 0 then "Unknown"
  else if cvss_score ≥ 9 then "CRITICAL"
  else if cvss_score ≥ 7 then "HIGH"
  else if cvss_score ≥ 4 then "MEDIUM"
  else if cvss_score ≥ (1 : Rat) / 10 then "LOW"
  else "Unknown"

/-- Splitting a character list at every occurrence of a separator
character; the result always has at least one (possibly empty) piece,
exactly like Python str.split with an explicit single-character separator. -/
def splitChar (sep : Char) : List Char → List (List Char)
  | [] => [[]]
  | c :: rest =>
    let r := splitChar sep rest
    if c = sep then [] :: r
    else
      match r with
      | h :: t => (c :: h) :: t
      | [] => [[c]]

/-- Python str.split with a single-character separator. -/
def pySplit (s : String) (sep : Char) : List String :=
  (splitChar sep s.toList).map (fun cs => String.mk cs)

/-- filters.get_nvd_published_date: the part of the published timestamp
before the first "T", "" when the timestamp is empty.  split never returns
an empty list, so the [] branch is unreachable. -/
def get_nvd_published_date (c : Cve) : String :=
  let published := c.published
  if published ≠ "" then
    match pySplit published 'T' with
    | datePart :: _ => datePart
    | [] => ""
  else ""

/-- The tokens contributed by one CPE criteria string: with at least 5
colon-separated parts, position 3 (vendor) then position 4 (product), each
appended only when truthy (non-empty) and different from "*".  This body is
inlined twice in the source (for a node and for a child node). -/
def cpeCriteriaTokens (criteria : String) : List String :=
  let parts := pySplit criteria ':'
  if parts.length ≥ 5 then
    let vendor := parts.getD 3 ""
    let product := parts.getD 4 ""
    (if vendor ≠ "" ∧ vendor ≠ "*" then [vendor] else []) ++
    (if product ≠ "" ∧ product ≠ "*" then [product] else [])
  else []

/-- filters._extract_nvd_vendors_products: walk configurations, each config
node list, each node cpeMatch list, then the cpeMatch lists of the direct
children of each node (children of children are not visited), accumulating
the criteria tokens in visit order. -/
def _extract_nvd_vendors_products (c : Cve) : List String :=
  c.configurations.foldl (fun acc config =>
    config.nodes.foldl (fun acc node =>
      let acc := node.cpeMatch.foldl
        (fun acc m => acc ++ cpeCriteriaTokens m.criteria) acc
      node.children.foldl (fun acc child =>
        child.cpeMatch.foldl
          (fun acc m => acc ++ cpeCriteriaTokens m.criteria) acc) acc) acc) []

/-- The dictionary built by filters.get_cisa_kev_details. -/
structure KevDetails where
  cve_id : String
  vendor_project : String
  product : String
  vulnerability_name : String
  date_added : String
  due_date : String
  known_ransomware_use : String
  notes : String

/-- filters.get_cisa_kev_details: field-by-field defaulting extraction. -/
def get_cisa_kev_details (k : Kev) : KevDetails :=
  { cve_id := k.cveID
    vendor_project := k.vendorProject
    product := k.product
    vulnerability_name := k.vulnerabilityName
    date_added := k.dateAdded
    due_date := k.dueDate
    known_ransomware_use := k.knownRansomwareCampaignUse.getD "Unknown"
    notes := k.notes }

/-- Python str.lower, restricted to the per-character lowering the keyword
and description strings of this repository use. -/
def lowerStr (s : String) : String :=
  String.mk (s.toList.map Char.toLower)

/-- Containment of one character list inside another: the needle is a
prefix of some suffix of the hay (an empty needle is always contained,
matching Python membership of the empty string). -/
def listContainsNeedle (needle hay : List Char) : Bool :=
  match hay with
  | [] => needle.isEmpty
  | _ :: t => needle.isPrefixOf hay || listContainsNeedle needle t

/-- Python substring containment: needle in hay. -/
def strContains (hay needle : String) : Bool :=
  listContainsNeedle needle.toList hay.toList

/-- filters._matches_keywords: case-insensitive substring match of any
keyword against the text. -/
def _matches_keywords (text : String) (keywords : List String) : Bool :=
  let text_lower := lowerStr text
  keywords.any (fun keyword => strContains text_lower (lowerStr keyword))

/-- The description the filter computes for a KEV record: vulnerabilityName
or-else description (Python or on strings: the left side when non-empty). -/
def kevFilterDescription (k : Kev) : String :=
  if k.vulnerabilityName ≠ "" then k.vulnerabilityName else k.description

/-- The searchable_text the filter builds per record: for NVD records the
description followed by the space-joined vendor/product tokens, for KEV
records description, vendorProject and product space-separated. -/
def searchableTextOf : VulnRecord → String
  | .nvd c =>
    let description := _extract_nvd_description c
    let vendors_products := _extract_nvd_vendors_products c
    description ++ " " ++ String.intercalate " " vendors_products
  | .kev k =>
    kevFilterDescription k ++ " " ++ k.vendorProject ++ " " ++ k.product

/-- filters.filter_ics_vulnerabilities: per record, skip when no keyword
matches the searchable text; then skip NVD records whose score is below
min_severity (KEV records are assigned the placeholder score 10.0 and are
never skipped by this test); keep the rest in order. -/
def filter_ics_vulnerabilities
    (cve_list : List VulnRecord) (keywords : List String)
    (min_severity : Rat) : List VulnRecord :=
  match cve_list with
  | [] => []
  | cve_obj :: rest =>
    let is_nvd := isNvdRecord cve_obj
    let searchable_text := searchableTextOf cve_obj
    let cvss_score : Rat :=
      match cve_obj with
      | .nvd c => _get_nvd_cvss_score c
      | .kev _ => 10
    if !(_matches_keywords searchable_text keywords) then
      filter_ics_vulnerabilities rest keywords min_severity
    else if is_nvd && decide (cvss_score < min_severity) then
      filter_ics_vulnerabilities rest keywords min_severity
    else
      cve_obj :: filter_ics_vulnerabilities rest keywords min_severity

/-- The pass predicate of the filter, as the spec states it: the keyword
test, and for CatalogEntry records only, score at least min_severity. -/
def passes_filter (keywords : List String) (min_severity : Rat)
    (r : VulnRecord) : Bool :=
  _matches_keywords (searchableTextOf r) keywords &&
  (!isNvdRecord r || decide (min_severity ≤ get_cvss_score r))

/-- config.ICS_KEYWORDS. -/
def ICS_KEYWORDS : List String :=
  ["SCADA", "PLC", "Modbus", "Siemens", "Schneider Electric",
   "Omron", "Rockwell", "ABB", "Mitsubishi Electric"]

/-- The statistics dictionary built by web_app.aggregate_statistics.  The
three defaultdict(int) members are embedded as total functions from keys to
counts that are zero outside the touched keys. -/
structure Stats where
  total_ics : Nat
  total_nvd : Nat
  total_cisa : Nat
  critical_count : Nat
  severity_distribution : String → Nat
  timeline_data : String → Nat
  vendor_product_count : String → Nat
  cisa_kev_count : Nat
  nvd_only_count : Nat

/-- Incrementing one key of a defaultdict(int). -/
def bumpCount (f : String → Nat) (key : String) : String → Nat :=
  fun x => if x = key then f x + 1 else f x

/-- One iteration of the keyword loop of the vendor/product breakdown for
an NVD record: bump the counter of every configured keyword found in the
lowered description. -/
def vendor_keyword_step (description : String) (stats : Stats)
    (keyword : String) : Stats :=
  if strContains description (lowerStr keyword) then
    { stats with vendor_product_count :=
        bumpCount stats.vendor_product_count keyword }
  else stats

/-- The severity-distribution block of the loop body of
web_app.aggregate_statistics: CRITICAL when the record is of KEV shape or
its ID is in the derived ID set, else the rating of a positive score, else
Unknown. -/
def severity_update (cisa_kev_cve_ids : List String) (stats : Stats)
    (cve : VulnRecord) : Stats :=
  let cvss_score := get_cvss_score cve
  let is_cisa_kev := !isNvdRecord cve
  let is_in_kev := cisa_kev_cve_ids.contains (get_cve_id cve)
  let severity_rating :=
    if is_cisa_kev || is_in_kev then "CRITICAL"
    else if cvss_score > 0 then get_severity_rating cvss_score
    else "Unknown"
  { stats with
    severity_distribution :=
      bumpCount stats.severity_distribution severity_rating }

/-- The critical-count block of the loop body: score at least 9.0, or score
exactly 0.0 on a record with the exploited annotation. -/
def critical_update (cisa_kev_cve_ids : List String) (stats : Stats)
    (cve : VulnRecord) : Stats :=
  let cvss_score := get_cvss_score cve
  let is_cisa_kev := !isNvdRecord cve
  let is_in_kev := cisa_kev_cve_ids.contains (get_cve_id cve)
  if cvss_score ≥ 9 ∨ (cvss_score = 0 ∧ (is_cisa_kev || is_in_kev)) then
    { stats with critical_count := stats.critical_count + 1 }
  else stats

/-- The timeline block of the loop body: bump the published date of an NVD
record or the date added of a KEV record, when non-empty. -/
def timeline_update (stats : Stats) (cve : VulnRecord) : Stats :=
  match cve with
  | .nvd c =>
    let published_date := get_nvd_published_date c
    if published_date ≠ "" then
      { stats with timeline_data :=
          bumpCount stats.timeline_data published_date }
    else stats
  | .kev k =>
    let date_added := (get_cisa_kev_details k).date_added
    if date_added ≠ "" then
      { stats with timeline_data :=
          bumpCount stats.timeline_data date_added }
    else stats

/-- The vendor/product block of the loop body: for an NVD record one bump
per configured keyword found in the lowered description; for a KEV record a
bump for the vendor and one for the combined vendor - product label. -/
def vendor_update (stats : Stats) (cve : VulnRecord) : Stats :=
  match cve with
  | .nvd c =>
    let description := lowerStr (get_nvd_description c)
    ICS_KEYWORDS.foldl (vendor_keyword_step description) stats
  | .kev k =>
    let kev_details := get_cisa_kev_details k
    let vendor := kev_details.vendor_project
    let product := kev_details.product
    let stats :=
      if vendor ≠ "" then
        { stats with vendor_product_count :=
            bumpCount stats.vendor_product_count vendor }
      else stats
    if product ≠ "" then
      { stats with vendor_product_count :=
          (bumpCount stats.vendor_product_count
            (vendor ++ " - " ++ product)) }
    else stats

/-- The KEV-tracking block of the loop body: one of the two counters is
incremented per record. -/
def tracking_update (cisa_kev_cve_ids : List String) (stats : Stats)
    (cve : VulnRecord) : Stats :=
  let is_cisa_kev := !isNvdRecord cve
  let is_in_kev := cisa_kev_cve_ids.contains (get_cve_id cve)
  if is_in_kev || is_cisa_kev then
    { stats with cisa_kev_count := stats.cisa_kev_count + 1 }
  else
    { stats with nvd_only_count := stats.nvd_only_count + 1 }

/-- One iteration of the loop of web_app.aggregate_statistics over the
filtered records, given the ID set the function derived from its cisa_kevs
argument: the five blocks of the loop body applied in source order. -/
def aggregate_statistics_step (cisa_kev_cve_ids : List String)
    (stats : Stats) (cve : VulnRecord) : Stats :=
  tracking_update cisa_kev_cve_ids
    (vendor_update
      (timeline_update
        (critical_update cisa_kev_cve_ids
          (severity_update cisa_kev_cve_ids stats cve) cve) cve) cve) cve

/-- web_app.aggregate_statistics: initial counters, the CVE-ID set derived
from the cisa_kevs argument (the date-windowed recent KEV list the caller
passes), then the per-record loop.  A Python set is embedded as the list of
IDs with membership as containment. -/
def aggregate_statistics (ics_filtered nvd_cves cisa_kevs : List VulnRecord) :
    Stats :=
  let init : Stats :=
    { total_ics := ics_filtered.length
      total_nvd := nvd_cves.length
      total_cisa := cisa_kevs.length
      critical_count := 0
      severity_distribution := fun _ => 0
      timeline_data := fun _ => 0
      vendor_product_count := fun _ => 0
      cisa_kev_count := 0
      nvd_only_count := 0 }
  let cisa_kev_cve_ids := cisa_kevs.map get_cve_id
  ics_filtered.foldl (aggregate_statistics_step cisa_kev_cve_ids) init

/-- The full-catalog CVE-ID set web_app.fetch_and_filter_data builds from
all_cisa_kevs for cross-referencing (IDs that are non-empty). -/
def full_catalog_kev_ids (all_cisa_kevs : List VulnRecord) : List String :=
  (all_cisa_kevs.map get_cve_id).filter (fun i => i ≠ "")

/-- The composition the /api/stats route performs on already-fetched data:
fetch_and_filter_data concatenates the NVD and recent-KEV lists, filters
them with ICS_KEYWORDS at min_severity 7.0, and also builds the full-catalog
ID set; api_stats then calls aggregate_statistics with the filtered list,
the NVD list and the recent (date-windowed) KEV list only — the full-catalog
ID set it received is not passed to the aggregation. -/
def api_stats_pipeline (nvd_cves cisa_kevs all_cisa_kevs : List VulnRecord) :
    Stats :=
  let all_cves := nvd_cves ++ cisa_kevs
  let ics_filtered := filter_ics_vulnerabilities all_cves ICS_KEYWORDS 7
  let _cisa_kev_cve_ids := full_catalog_kev_ids all_cisa_kevs
  aggregate_statistics ics_filtered nvd_cves cisa_kevs

/-- The exploited annotation as web_app.format_cve_data computes it for the
dashboard list, from the ID set it is passed (fetch_and_filter_data passes
the full-catalog set): an NVD record is flagged when its ID is in the set,
a KEV-origin record is always flagged. -/
def format_is_known_exploited (cisa_kev_cve_ids : List String)
    (r : VulnRecord) : Bool :=
  match r with
  | .nvd _ => cisa_kev_cve_ids.contains (get_cve_id r)
  | .kev _ => true

/-- The exploited annotation as the aggregation computes it per record,
relative to the ID set it derived from its cisa_kevs argument:
is_cisa_kev or is_in_kev. -/
def agg_is_known_exploited (cisa_kev_cve_ids : List String)
    (r : VulnRecord) : Bool :=
  !isNvdRecord r || cisa_kev_cve_ids.contains (get_cve_id r)

/-- The histogram bucket the spec assigns a record: CRITICAL when the
exploited annotation holds, otherwise the severity rating of its score. -/
def spec_histogram_bucket (cisa_kev_cve_ids : List String)
    (r : VulnRecord) : String :=
  if agg_is_known_exploited cisa_kev_cve_ids r then "CRITICAL"
  else get_severity_rating (get_cvss_score r)

/-- The critical-count condition the spec states: score at least 9, or
score exactly 0 for a record carrying the exploited annotation. -/
def spec_critical_condition (cisa_kev_cve_ids : List String)
    (r : VulnRecord) : Bool :=
  decide (get_cvss_score r ≥ 9) ||
  (decide (get_cvss_score r = 0) && agg_is_known_exploited cisa_kev_cve_ids r)

/-- Rank of a severity rating string, for stating monotonicity: Unknown
below LOW below MEDIUM below HIGH below CRITICAL. -/
def severityRank (rating : String) : Nat :=
  if rating = "CRITICAL" then 4
  else if rating = "HIGH" then 3
  else if rating = "MEDIUM" then 2
  else if rating = "LOW" then 1
  else 0

/-- The sum of the severity histogram over the five rating buckets the
pipeline can produce. -/
def histogramSum (f : String → Nat) : Nat :=
  f "CRITICAL" + f "HIGH" + f "MEDIUM" + f "LOW" + f "Unknown"

/-- Written from the words of claim C5: probe the scheme lists in priority
order v3.1, v3.0, v2 and return the first non-zero base score found among
any of the entries listed under a scheme, 0.0 when none is non-zero. -/
def claimed_cvss_score (c : Cve) : Rat :=
  let allScores :=
    (c.metrics.cvssMetricV31 ++ c.metrics.cvssMetricV30 ++
      c.metrics.cvssMetricV2).map (fun m => m.cvssData.baseScore)
  ((allScores.filter (fun s => s ≠ 0)).headD 0)

/-- Written from the words of claim C8: with at least 5 colon-separated
segments, read positions 3 and 4 as vendor and product and exclude only the
tokens equal to the wildcard. -/
def claimed_criteria_tokens (criteria : String) : List String :=
  let parts := pySplit criteria ':'
  if parts.length ≥ 5 then
    ([parts.getD 3 "", parts.getD 4 ""]).filter (fun t => t ≠ "*")
  else []

/-- The amended token rule matching the source: a token is also excluded
when it is empty. -/
def amended_criteria_tokens (criteria : String) : List String :=
  let parts := pySplit criteria ':'
  if parts.length ≥ 5 then
    ([parts.getD 3 "", parts.getD 4 ""]).filter
      (fun t => t ≠ "*" ∧ t ≠ "")
  else []

/-- The configurations walk of the claim, parameterized by the per-criteria
token rule: every node of every configuration and the direct children of
each node contribute the tokens of their cpeMatch criteria, in visit
order.  With the rule of the source this is exactly the extraction
function. -/
def tokensWithRule (rule : String → List String) (c : Cve) : List String :=
  c.configurations.foldl (fun acc config =>
    config.nodes.foldl (fun acc node =>
      let acc := node.cpeMatch.foldl
        (fun acc m => acc ++ rule m.criteria) acc
      node.children.foldl (fun acc child =>
        child.cpeMatch.foldl
          (fun acc m => acc ++ rule m.criteria) acc) acc) acc) []

/-- A concrete NVD record: Siemens SCADA description, CVSS v3.1 base score
8.0, ID CVE-2024-0001. -/
def cveSiemens : Cve :=
  { id := "CVE-2024-0001"
    descriptions :=
      [{ lang := some "en"
         value := "Siemens SCADA controller buffer overflow" }]
    configurations := []
    metrics :=
      { cvssMetricV31 := [⟨⟨8⟩⟩]
        cvssMetricV30 := []
        cvssMetricV2 := [] }
    published := "2024-01-10T00:00:00.000" }

/-- A concrete KEV catalog entry for the same CVE ID CVE-2024-0001, added to
the catalog long before any recent window. -/
def kevSiemens : Kev :=
  { cveID := "CVE-2024-0001"
    vendorProject := "Siemens"
    product := "SIMATIC S7"
    vulnerabilityName := "Siemens SIMATIC S7 PLC code execution"
    description := ""
    dateAdded := "2022-05-01"
    dueDate := "2022-05-22"
    knownRansomwareCampaignUse := some "Unknown"
    notes := "" }

/-- A concrete NVD record with score 5.0 whose ID appears in the KEV list:
known-exploited but of middling numeric severity. -/
def cveRockwell5 : Cve :=
  { id := "CVE-2023-0002"
    descriptions :=
      [{ lang := some "en", value := "Rockwell PLC firmware flaw" }]
    configurations := []
    metrics :=
      { cvssMetricV31 := [⟨⟨5⟩⟩]
        cvssMetricV30 := []
        cvssMetricV2 := [] }
    published := "2023-02-01T00:00:00.000" }

/-- The KEV entry matching cveRockwell5. -/
def kevRockwell5 : Kev :=
  { cveID := "CVE-2023-0002"
    vendorProject := "Rockwell"
    product := "PLC firmware"
    vulnerabilityName := "Rockwell PLC firmware vulnerability"
    description := ""
    dateAdded := "2023-03-01"
    dueDate := "2023-03-22"
    knownRansomwareCampaignUse := Option.none
    notes := "" }

/-- A CVE whose v3.1 metric list has a zero-scored first entry followed by a
non-zero entry, and no other scheme. -/
def cveZeroThenEight : Cve :=
  { id := "CVE-2025-1000"
    descriptions := []
    configurations := []
    metrics :=
      { cvssMetricV31 := [⟨⟨0⟩⟩, ⟨⟨8⟩⟩]
        cvssMetricV30 := []
        cvssMetricV2 := [] }
    published := "" }

/-- A CVE whose single CPE criteria string has an empty vendor segment at
position 3 and a product at position 4. -/
def cveEmptyVendor : Cve :=
  { id := "CVE-2025-2000"
    descriptions := []
    configurations :=
      [{ nodes := [CNode.node [⟨"cpe:2.3:a::widget:1.0"⟩] []] }]
    metrics := { cvssMetricV31 := [], cvssMetricV30 := [], cvssMetricV2 := [] }
    published := "" }

end ICSW

namespace ICSW.Py

/-!
An untyped model of the Python values the accessors actually receive,
with the exception behavior of the dictionary, iteration and indexing
operations they perform.  Dictionaries carry string keys, as JSON feeds do.
-/

/-- A Python value as delivered by json parsing. -/
inductive PyVal where
  | none
  | bool (b : Bool)
  | int (n : Int)
  | str (s : String)
  | list (items : List PyVal)
  | dict (entries : List (String × PyVal))

/-- The Python exception classes the accessors can raise or catch. -/
inductive PyExc where
  | typeError
  | attributeError
  | keyError
  | indexError
  | valueError
deriving DecidableEq

/-- Python truthiness. -/
def pyTruthy : PyVal → Bool
  | .none => false
  | .bool b => b
  | .int n => n ≠ 0
  | .str s => s ≠ ""
  | .list items => !items.isEmpty
  | .dict entries => !entries.isEmpty

/-- obj.get(key, dflt): defined only on dictionaries; every other value has
no get attribute and raises AttributeError. -/
def pyDictGet (obj : PyVal) (key : String) (dflt : PyVal) :
    Except PyExc PyVal :=
  match obj with
  | .dict entries => .ok ((entries.lookup key).getD dflt)
  | _ => .error .attributeError

/-- Iteration over a value: lists yield their items, strings their
characters, dictionaries their keys; every other value raises TypeError. -/
def pyIter : PyVal → Except PyExc (List PyVal)
  | .list items => .ok items
  | .str s => .ok (s.toList.map (fun ch => .str (String.mk [ch])))
  | .dict entries => .ok (entries.map (fun e => .str e.1))
  | _ => .error .typeError

/-- Subscription v[0]: head of a non-empty list or string (IndexError when
empty), KeyError on a dictionary (whose keys are strings, never 0), and
TypeError on every non-subscriptable value. -/
def pyIndexZero : PyVal → Except PyExc PyVal
  | .list [] => .error .indexError
  | .list (v :: _) => .ok v
  | .str s =>
    match s.toList with
    | [] => .error .indexError
    | ch :: _ => .ok (.str (String.mk [ch]))
  | .dict _ => .error .keyError
  | _ => .error .typeError

/-- Python equality of a value against a string literal: true exactly for
the equal string. -/
def pyEqStr (v : PyVal) (s : String) : Bool :=
  match v with
  | .str t => t = s
  | _ => false

/-- The loop of _extract_nvd_description: for each element, read
desc.get("lang"), and when it equals "en" return desc.get("value", ""). -/
def findEnglishDesc : List PyVal → Except PyExc (Option PyVal)
  | [] => .ok Option.none
  | desc :: rest => do
    let lang ← pyDictGet desc "lang" .none
    if pyEqStr lang "en" then
      let v ← pyDictGet desc "value" (.str "")
      return some v
    else
      findEnglishDesc rest

/-- The try-block body of filters._extract_nvd_description over untyped
values: read cve then descriptions with defaulting gets, iterate looking
for an English entry, else fall back to entry [0], else return "". -/
def extractDescBody (cve_obj : PyVal) : Except PyExc PyVal := do
  let cve ← pyDictGet cve_obj "cve" (.dict [])
  let descriptions ← pyDictGet cve "descriptions" (.list [])
  let items ← pyIter descriptions
  match ← findEnglishDesc items with
  | some v => return v
  | Option.none =>
    if pyTruthy descriptions then
      let first ← pyIndexZero descriptions
      pyDictGet first "value" (.str "")
    else
      return (.str "")

/-- filters._extract_nvd_description with its exception handler: the except
clause catches KeyError, IndexError and AttributeError and falls through to
return ""; any other exception class propagates out of the function. -/
def _extract_nvd_description_py (cve_obj : PyVal) : Except PyExc PyVal :=
  match extractDescBody cve_obj with
  | .ok v => .ok v
  | .error e =>
    if e = .keyError ∨ e = .indexError ∨ e = .attributeError then
      .ok (.str "")
    else
      .error e

/-- A record whose nested descriptions field has the wrong type: an integer
where a list is expected. -/
def malformedCveObj : PyVal :=
  .dict [("cve", .dict [("descriptions", .int 5)])]

end ICSW.Py

namespace ICSW

/-- The filter is pointwise List.filter of the pass predicate. -/
theorem filter_eq_listFilter (keywords : List String) (ms : Rat) :
    ∀ cve_list : List VulnRecord,
      filter_ics_vulnerabilities cve_list keywords ms =
        cve_list.filter (passes_filter keywords ms) := by
  intro l
  induction l with
  | nil => rfl
  | cons r t ih =>
    cases r with
    | nvd c =>
      simp only [filter_ics_vulnerabilities, isNvdRecord, List.filter_cons,
        passes_filter, get_cvss_score, Bool.not_true, Bool.false_or,
        Bool.true_and, Bool.true_or, Bool.not_false]
      by_cases hm :
          _matches_keywords (searchableTextOf (VulnRecord.nvd c)) keywords
      · by_cases hs : _get_nvd_cvss_score c < ms
        · have hs2 : ¬ ms ≤ _get_nvd_cvss_score c := not_le.mpr hs
          simp [hm, hs, hs2, ih]
        · have hs2 : ms ≤ _get_nvd_cvss_score c := not_lt.mp hs
          simp [hm, hs, hs2, ih]
      · simp [hm, ih]
    | kev k =>
      simp only [filter_ics_vulnerabilities, isNvdRecord, List.filter_cons,
        passes_filter, get_cvss_score, Bool.not_false, Bool.false_and,
        Bool.true_or, Bool.and_true]
      by_cases hm :
          _matches_keywords (searchableTextOf (VulnRecord.kev k)) keywords
      · simp [hm, ih]
      · simp [hm, ih]

/-- C2: every record without a nested cve container scores exactly 0, and
the severity test of the filter never rejects it: a keyword-matching
ExploitedEntry present in the input is kept whatever min_severity is. -/
theorem c2_exploited_entries_bypass_severity (k : Kev)
    (cve_list : List VulnRecord) (keywords : List String)
    (min_severity : Rat) :
    get_cvss_score (VulnRecord.kev k) = 0 ∧
    (_matches_keywords (searchableTextOf (VulnRecord.kev k)) keywords = true →
      VulnRecord.kev k ∈ cve_list →
      VulnRecord.kev k ∈
        filter_ics_vulnerabilities cve_list keywords min_severity) := by
  constructor
  · rfl
  · intro hm hmem
    rw [filter_eq_listFilter]
    refine List.mem_filter.mpr ⟨hmem, ?_⟩
    simp [passes_filter, isNvdRecord, hm]

/-- Witness for C2 at a concrete KEV entry, input list and threshold. -/
theorem c2_exploited_entries_bypass_severity_witness :
    VulnRecord.kev kevSiemens ∈
      filter_ics_vulnerabilities [VulnRecord.kev kevSiemens]
        ICS_KEYWORDS 7 :=
  (c2_exploited_entries_bypass_severity kevSiemens
    [VulnRecord.kev kevSiemens] ICS_KEYWORDS 7).2
    (by decide) (List.mem_singleton.mpr rfl)

/-- C3: the filter returns the order-preserving subsequence of its input
holding exactly the records that pass the keyword test and, for records of
the CatalogEntry shape only, score at least min_severity; in particular a
CatalogEntry scoring below min_severity is never in the output. -/
theorem c3_filter_is_exact_subsequence (cve_list : List VulnRecord)
    (keywords : List String) (min_severity : Rat) :
    filter_ics_vulnerabilities cve_list keywords min_severity =
      cve_list.filter (passes_filter keywords min_severity) ∧
    List.Sublist
      (filter_ics_vulnerabilities cve_list keywords min_severity) cve_list ∧
    (∀ r : VulnRecord,
      r ∈ filter_ics_vulnerabilities cve_list keywords min_severity ↔
        r ∈ cve_list ∧
        _matches_keywords (searchableTextOf r) keywords = true ∧
        (isNvdRecord r = true → min_severity ≤ get_cvss_score r)) ∧
    (∀ c : Cve, get_cvss_score (VulnRecord.nvd c) < min_severity →
      VulnRecord.nvd c ∉
        filter_ics_vulnerabilities cve_list keywords min_severity) := by
  have he := filter_eq_listFilter keywords min_severity cve_list
  have hmem : ∀ r : VulnRecord,
      r ∈ filter_ics_vulnerabilities cve_list keywords min_severity ↔
        r ∈ cve_list ∧
        _matches_keywords (searchableTextOf r) keywords = true ∧
        (isNvdRecord r = true → min_severity ≤ get_cvss_score r) := by
    intro r
    rw [he, List.mem_filter]
    constructor
    · rintro ⟨h1, h2⟩
      simp only [passes_filter, Bool.and_eq_true, Bool.or_eq_true,
        Bool.not_eq_true', decide_eq_true_eq] at h2
      refine ⟨h1, h2.1, ?_⟩
      intro hn
      rcases h2.2 with h3 | h3
      · rw [hn] at h3; cases h3
      · exact h3
    · rintro ⟨h1, h2, h3⟩
      refine ⟨h1, ?_⟩
      cases hr : isNvdRecord r with
      | false => simp [passes_filter, h2, hr]
      | true => simp [passes_filter, h2, hr, h3 hr]
  refine ⟨he, ?_, hmem, ?_⟩
  · rw [he]; exact List.filter_sublist cve_list
  · intro c hc hmemc
    have h := ((hmem (VulnRecord.nvd c)).mp hmemc).2.2
    have := h rfl
    exact absurd this (not_le.mpr hc)

/-- Witness for C3 at a concrete below-threshold CatalogEntry. -/
theorem c3_filter_is_exact_subsequence_witness :
    VulnRecord.nvd cveRockwell5 ∉
      filter_ics_vulnerabilities [VulnRecord.nvd cveRockwell5]
        ICS_KEYWORDS 7 :=
  (c3_filter_is_exact_subsequence [VulnRecord.nvd cveRockwell5]
    ICS_KEYWORDS 7).2.2.2 cveRockwell5 (by decide)

/-- A non-positive score always lands in the Unknown tier. -/
theorem rating_of_nonpos (s : Rat) (h : ¬ 0 < s) :
    get_severity_rating s = "Unknown" := by
  unfold get_severity_rating
  have h10 : (0 : Rat) < 1 / 10 := by norm_num
  split_ifs with h0 h9 h7 h4 h1
  · rfl
  · exfalso; exact h (by linarith [ge_iff_le.mp h9])
  · exfalso; exact h (by linarith [ge_iff_le.mp h7])
  · exfalso; exact h (by linarith [ge_iff_le.mp h4])
  · exfalso; exact h (by linarith [ge_iff_le.mp h1])
  · rfl

/-- Closed form of the rank of the rating of a non-negative score. -/
theorem severityRank_rating_eq (s : Rat) (hs : 0 ≤ s) :
    severityRank (get_severity_rating s) =
      (if 9 ≤ s then 4 else if 7 ≤ s then 3 else if 4 ≤ s then 2
        else if 1 / 10 ≤ s then 1 else 0) := by
  by_cases h0 : s = 0
  · subst h0
    simp only [get_severity_rating, if_pos rfl, severityRank]
    norm_num
    decide
  · unfold get_severity_rating severityRank
    rw [if_neg h0]
    split_ifs <;> simp_all [ge_iff_le]

/-- C4: the tier thresholds as the spec states them, inclusive on each
lower bound, Unknown at zero and below the LOW cutoff, and monotonicity of
the rating rank in the score over non-negative scores; the boundary
evaluations the spec lists hold. -/
theorem c4_severity_tiers (s : Rat) :
    (s = 0 → get_severity_rating s = "Unknown") ∧
    (9 ≤ s → get_severity_rating s = "CRITICAL") ∧
    (7 ≤ s ∧ s < 9 → get_severity_rating s = "HIGH") ∧
    (4 ≤ s ∧ s < 7 → get_severity_rating s = "MEDIUM") ∧
    (1 / 10 ≤ s ∧ s < 4 → get_severity_rating s = "LOW") ∧
    (s ≠ 0 ∧ s < 1 / 10 → get_severity_rating s = "Unknown") ∧
    (∀ t : Rat, 0 ≤ s → s ≤ t →
      severityRank (get_severity_rating s) ≤
        severityRank (get_severity_rating t)) ∧
    (get_severity_rating (8.9 : Rat) = "HIGH" ∧
      get_severity_rating 9 = "CRITICAL" ∧
      get_severity_rating (6.9 : Rat) = "MEDIUM" ∧
      get_severity_rating 7 = "HIGH" ∧
      get_severity_rating 0 = "Unknown" ∧
      get_severity_rating (0.05 : Rat) = "Unknown" ∧
      get_severity_rating (0.1 : Rat) = "LOW") := by
  refine ⟨?_, ?_, ?_, ?_, ?_, ?_, ?_, ?_⟩
  · intro h0; subst h0; norm_num [get_severity_rating]
  · intro h9
    have h0 : s ≠ 0 := by intro h; rw [h] at h9; norm_num at h9
    norm_num [get_severity_rating, h0, ge_iff_le, h9]
  · rintro ⟨h7, h9⟩
    have h0 : s ≠ 0 := by intro h; rw [h] at h7; norm_num at h7
    have h9n : ¬ 9 ≤ s := not_le.mpr h9
    norm_num [get_severity_rating, h0, ge_iff_le, h7, h9n]
  · rintro ⟨h4, h7⟩
    have h0 : s ≠ 0 := by intro h; rw [h] at h4; norm_num at h4
    have h9n : ¬ 9 ≤ s := not_le.mpr (by linarith)
    have h7n : ¬ 7 ≤ s := not_le.mpr h7
    norm_num [get_severity_rating, h0, ge_iff_le, h4, h9n, h7n]
  · rintro ⟨h1, h4⟩
    have h0 : s ≠ 0 := by
      intro h; rw [h] at h1; norm_num at h1
    have h9n : ¬ 9 ≤ s := not_le.mpr (by linarith)
    have h7n : ¬ 7 ≤ s := not_le.mpr (by linarith)
    have h4n : ¬ 4 ≤ s := not_le.mpr h4
    norm_num [get_severity_rating, h0, ge_iff_le, h1, h9n, h7n, h4n]
  · rintro ⟨h0, h1⟩
    have h9n : ¬ 9 ≤ s := not_le.mpr (by linarith)
    have h7n : ¬ 7 ≤ s := not_le.mpr (by linarith)
    have h4n : ¬ 4 ≤ s := not_le.mpr (by linarith)
    have h1n : ¬ 1 / 10 ≤ s := not_le.mpr h1
    norm_num [get_severity_rating, h0, ge_iff_le, h9n, h7n, h4n, h1n]
  · intro t hs hst
    rw [severityRank_rating_eq s hs, severityRank_rating_eq t (le_trans hs hst)]
    split_ifs <;> first | omega | linarith
  · refine ⟨?_, ?_, ?_, ?_, ?_, ?_, ?_⟩ <;> norm_num [get_severity_rating]

/-- Witness for C4 at concrete scores. -/
theorem c4_severity_tiers_witness :
    get_severity_rating 5 = "MEDIUM" ∧
    severityRank (get_severity_rating 5) ≤
      severityRank (get_severity_rating 8) :=
  ⟨(c4_severity_tiers 5).2.2.2.1 ⟨by norm_num, by norm_num⟩,
    (c4_severity_tiers 5).2.2.2.2.2.2.1 8 (by norm_num) (by norm_num)⟩

/-- One keyword step of the vendor breakdown leaves every field except the
vendor/product histogram unchanged. -/
theorem vendor_keyword_step_preserves (d : String) (s : Stats) (k : String) :
    (vendor_keyword_step d s k).severity_distribution =
        s.severity_distribution ∧
      (vendor_keyword_step d s k).critical_count = s.critical_count ∧
      (vendor_keyword_step d s k).cisa_kev_count = s.cisa_kev_count ∧
      (vendor_keyword_step d s k).nvd_only_count = s.nvd_only_count ∧
      (vendor_keyword_step d s k).total_ics = s.total_ics := by
  unfold vendor_keyword_step
  split <;> exact ⟨rfl, rfl, rfl, rfl, rfl⟩

/-- The whole keyword fold of the vendor breakdown leaves every field except
the vendor/product histogram unchanged. -/
theorem vendor_fold_preserves (d : String) :
    ∀ (kws : List String) (s : Stats),
      ((kws.foldl (vendor_keyword_step d) s).severity_distribution =
          s.severity_distribution ∧
        (kws.foldl (vendor_keyword_step d) s).critical_count =
          s.critical_count ∧
        (kws.foldl (vendor_keyword_step d) s).cisa_kev_count =
          s.cisa_kev_count ∧
        (kws.foldl (vendor_keyword_step d) s).nvd_only_count =
          s.nvd_only_count ∧
        (kws.foldl (vendor_keyword_step d) s).total_ics = s.total_ics) := by
  intro kws
  induction kws with
  | nil => intro s; exact ⟨rfl, rfl, rfl, rfl, rfl⟩
  | cons k ks ih =>
    intro s
    rw [List.foldl_cons]
    have h1 := ih (vendor_keyword_step d s k)
    have h2 := vendor_keyword_step_preserves d s k
    exact ⟨h1.1.trans h2.1, (h1.2.1).trans h2.2.1, (h1.2.2.1).trans h2.2.2.1,
      (h1.2.2.2.1).trans h2.2.2.2.1, (h1.2.2.2.2).trans h2.2.2.2.2⟩

/-- The vendor/product block leaves every field except the vendor/product
histogram unchanged. -/
theorem vendor_update_preserves (s : Stats) (r : VulnRecord) :
    (vendor_update s r).severity_distribution = s.severity_distribution ∧
      (vendor_update s r).critical_count = s.critical_count ∧
      (vendor_update s r).cisa_kev_count = s.cisa_kev_count ∧
      (vendor_update s r).nvd_only_count = s.nvd_only_count ∧
      (vendor_update s r).total_ics = s.total_ics := by
  cases r with
  | nvd c => exact vendor_fold_preserves _ ICS_KEYWORDS s
  | kev k =>
    simp only [vendor_update]
    split <;> split <;> exact ⟨rfl, rfl, rfl, rfl, rfl⟩

/-- The timeline block leaves every field except the timeline unchanged. -/
theorem timeline_update_preserves (s : Stats) (r : VulnRecord) :
    (timeline_update s r).severity_distribution = s.severity_distribution ∧
      (timeline_update s r).critical_count = s.critical_count ∧
      (timeline_update s r).cisa_kev_count = s.cisa_kev_count ∧
      (timeline_update s r).nvd_only_count = s.nvd_only_count ∧
      (timeline_update s r).total_ics = s.total_ics := by
  cases r <;> simp only [timeline_update] <;> split <;>
    exact ⟨rfl, rfl, rfl, rfl, rfl⟩

/-- The per-record bucket the severity block computes is the spec bucket:
forced CRITICAL under the exploited annotation, otherwise the rating of the
score (the positivity guard in the source is redundant because every
non-positive score rates Unknown). -/
theorem severity_update_sd (ids : List String) (s : Stats) (r : VulnRecord) :
    (severity_update ids s r).severity_distribution =
      bumpCount s.severity_distribution (spec_histogram_bucket ids r) := by
  rcases Bool.eq_false_or_eq_true (isNvdRecord r) with hn | hn
  · by_cases hm : get_cve_id r ∈ ids
    · simp [severity_update, spec_histogram_bucket, agg_is_known_exploited,
        hn, hm]
    · simp [severity_update, spec_histogram_bucket, agg_is_known_exploited,
        hn, hm]
      by_cases hp : get_cvss_score r > 0
      · simp [hp]
      · simp [hp, rating_of_nonpos _ hp]
  · simp [severity_update, spec_histogram_bucket, agg_is_known_exploited, hn]

/-- The other fields of the severity block are unchanged. -/
theorem severity_update_preserves (ids : List String) (s : Stats)
    (r : VulnRecord) :
    (severity_update ids s r).critical_count = s.critical_count ∧
      (severity_update ids s r).cisa_kev_count = s.cisa_kev_count ∧
      (severity_update ids s r).nvd_only_count = s.nvd_only_count ∧
      (severity_update ids s r).total_ics = s.total_ics :=
  ⟨rfl, rfl, rfl, rfl⟩

/-- The critical block adds the spec condition as a 0/1 increment and
leaves the other fields unchanged. -/
theorem critical_update_fields (ids : List String) (s : Stats)
    (r : VulnRecord) :
    (critical_update ids s r).critical_count =
        s.critical_count +
          (if spec_critical_condition ids r then 1 else 0) ∧
      (critical_update ids s r).severity_distribution =
        s.severity_distribution ∧
      (critical_update ids s r).cisa_kev_count = s.cisa_kev_count ∧
      (critical_update ids s r).nvd_only_count = s.nvd_only_count ∧
      (critical_update ids s r).total_ics = s.total_ics := by
  by_cases hc :
      (9 : Rat) ≤ get_cvss_score r ∨
        (get_cvss_score r = 0 ∧
          (isNvdRecord r = false ∨ get_cve_id r ∈ ids))
  · simp [critical_update, spec_critical_condition,
      agg_is_known_exploited, hc]
  · simp [critical_update, spec_critical_condition,
      agg_is_known_exploited, hc]

/-- The tracking block increments exactly one of the two counters, chosen
by the exploited annotation, and leaves the other fields unchanged. -/
theorem tracking_update_fields (ids : List String) (s : Stats)
    (r : VulnRecord) :
    (tracking_update ids s r).cisa_kev_count =
        s.cisa_kev_count +
          (if agg_is_known_exploited ids r then 1 else 0) ∧
      (tracking_update ids s r).nvd_only_count =
        s.nvd_only_count +
          (if agg_is_known_exploited ids r then 0 else 1) ∧
      (tracking_update ids s r).severity_distribution =
        s.severity_distribution ∧
      (tracking_update ids s r).critical_count = s.critical_count ∧
      (tracking_update ids s r).total_ics = s.total_ics := by
  rcases Bool.eq_false_or_eq_true (isNvdRecord r) with hn | hn <;>
    by_cases hm : get_cve_id r ∈ ids <;>
    simp [tracking_update, agg_is_known_exploited, hn, hm]

/-- Field characterization of one full loop iteration. -/
theorem step_fields (ids : List String) (s : Stats) (r : VulnRecord) :
    (aggregate_statistics_step ids s r).severity_distribution =
        bumpCount s.severity_distribution (spec_histogram_bucket ids r) ∧
      (aggregate_statistics_step ids s r).critical_count =
        s.critical_count +
          (if spec_critical_condition ids r then 1 else 0) ∧
      (aggregate_statistics_step ids s r).cisa_kev_count =
        s.cisa_kev_count +
          (if agg_is_known_exploited ids r then 1 else 0) ∧
      (aggregate_statistics_step ids s r).nvd_only_count =
        s.nvd_only_count +
          (if agg_is_known_exploited ids r then 0 else 1) ∧
      (aggregate_statistics_step ids s r).total_ics = s.total_ics := by
  unfold aggregate_statistics_step
  have hsev1 := severity_update_sd ids s r
  have hsev2 := severity_update_preserves ids s r
  have hcrit := critical_update_fields ids (severity_update ids s r) r
  have htime :=
    timeline_update_preserves
      (critical_update ids (severity_update ids s r) r) r
  have hvend :=
    vendor_update_preserves
      (timeline_update (critical_update ids (severity_update ids s r) r) r) r
  have htrack :=
    tracking_update_fields ids
      (vendor_update
        (timeline_update
          (critical_update ids (severity_update ids s r) r) r) r) r
  refine ⟨?_, ?_, ?_, ?_, ?_⟩
  · rw [htrack.2.2.1, hvend.1, htime.1, hcrit.2.1, hsev1]
  · rw [htrack.2.2.2.1, hvend.2.1, htime.2.1, hcrit.1, hsev2.1]
  · rw [htrack.1, hvend.2.2.1, htime.2.2.1, hcrit.2.2.1, hsev2.2.1]
  · rw [htrack.2.1, hvend.2.2.2.1, htime.2.2.2.1, hcrit.2.2.2.1, hsev2.2.2.1]
  · rw [htrack.2.2.2.2, hvend.2.2.2.2, htime.2.2.2.2, hcrit.2.2.2.2,
      hsev2.2.2.2]

/-- The severity histogram of the loop counts each bucket. -/
theorem foldl_step_sd (ids : List String) :
    ∀ (l : List VulnRecord) (init : Stats) (key : String),
      ((l.foldl (aggregate_statistics_step ids) init).severity_distribution
          key) =
        init.severity_distribution key +
          l.countP (fun r => spec_histogram_bucket ids r == key) := by
  intro l
  induction l with
  | nil => intro init key; simp
  | cons r t ih =>
    intro init key
    rw [List.foldl_cons, ih, (step_fields ids init r).1, List.countP_cons]
    by_cases h : spec_histogram_bucket ids r = key
    · simp [bumpCount, h]
      omega
    · have h2 : ¬ (key = spec_histogram_bucket ids r) := fun hh => h hh.symm
      simp [bumpCount, h, h2]

/-- The critical count of the loop counts its condition. -/
theorem foldl_step_cc (ids : List String) :
    ∀ (l : List VulnRecord) (init : Stats),
      (l.foldl (aggregate_statistics_step ids) init).critical_count =
        init.critical_count + l.countP (spec_critical_condition ids) := by
  intro l
  induction l with
  | nil => intro init; simp
  | cons r t ih =>
    intro init
    rw [List.foldl_cons, ih, (step_fields ids init r).2.1, List.countP_cons]
    by_cases h : spec_critical_condition ids r = true
    · simp [h]; omega
    · simp [h]

/-- The KEV-tracking counters of the loop count the exploited annotation
and its negation. -/
theorem foldl_step_tracking (ids : List String) :
    ∀ (l : List VulnRecord) (init : Stats),
      ((l.foldl (aggregate_statistics_step ids) init).cisa_kev_count =
          init.cisa_kev_count +
            l.countP (agg_is_known_exploited ids) ∧
        (l.foldl (aggregate_statistics_step ids) init).nvd_only_count =
          init.nvd_only_count +
            l.countP (fun r => !agg_is_known_exploited ids r)) := by
  intro l
  induction l with
  | nil => intro init; simp
  | cons r t ih =>
    intro init
    rw [List.foldl_cons]
    have h1 := (ih (aggregate_statistics_step ids init r)).1
    have h2 := (ih (aggregate_statistics_step ids init r)).2
    have hs := step_fields ids init r
    constructor
    · rw [h1, hs.2.2.1, List.countP_cons]
      by_cases h : agg_is_known_exploited ids r = true
      · simp [h]; omega
      · simp [h]
    · rw [h2, hs.2.2.2.1, List.countP_cons]
      by_cases h : agg_is_known_exploited ids r = true
      · simp [h]
      · simp [h]; omega

/-- The loop never changes total_ics. -/
theorem foldl_step_total (ids : List String) :
    ∀ (l : List VulnRecord) (init : Stats),
      (l.foldl (aggregate_statistics_step ids) init).total_ics =
        init.total_ics := by
  intro l
  induction l with
  | nil => intro init; rfl
  | cons r t ih =>
    intro init
    rw [List.foldl_cons, ih, (step_fields ids init r).2.2.2.2]

/-- C6: in the aggregation, the severity histogram counts every record with
the exploited annotation under CRITICAL, overriding the rating of its own
score, and every other record under the rating of its score (Unknown at
score 0). -/
theorem c6_histogram_forces_critical
    (ics_filtered nvd_cves cisa_kevs : List VulnRecord) (rating : String) :
    (aggregate_statistics ics_filtered nvd_cves cisa_kevs).severity_distribution
        rating =
      ics_filtered.countP (fun r =>
        spec_histogram_bucket (cisa_kevs.map get_cve_id) r == rating) := by
  simp only [aggregate_statistics]
  rw [foldl_step_sd]
  simp

/-- C7: the critical count counts exactly the records scoring at least 9,
or scoring exactly 0 while carrying the exploited annotation; a
known-exploited record with score 5 lands in the CRITICAL histogram bucket
yet is not counted by critical_count. -/
theorem c7_critical_count_condition
    (ics_filtered nvd_cves cisa_kevs : List VulnRecord) :
    (aggregate_statistics ics_filtered nvd_cves cisa_kevs).critical_count =
      ics_filtered.countP
        (spec_critical_condition (cisa_kevs.map get_cve_id)) ∧
    (aggregate_statistics [VulnRecord.nvd cveRockwell5] []
        [VulnRecord.kev kevRockwell5]).severity_distribution "CRITICAL" = 1 ∧
    (aggregate_statistics [VulnRecord.nvd cveRockwell5] []
        [VulnRecord.kev kevRockwell5]).critical_count = 0 := by
  refine ⟨?_, rfl, rfl⟩
  simp only [aggregate_statistics]
  rw [foldl_step_cc]
  simp

/-- Every bucket the pipeline produces is one of the five ratings. -/
theorem bucket_mem5 (ids : List String) (r : VulnRecord) :
    spec_histogram_bucket ids r = "CRITICAL" ∨
      spec_histogram_bucket ids r = "HIGH" ∨
      spec_histogram_bucket ids r = "MEDIUM" ∨
      spec_histogram_bucket ids r = "LOW" ∨
      spec_histogram_bucket ids r = "Unknown" := by
  unfold spec_histogram_bucket get_severity_rating
  split_ifs <;> simp

/-- The five bucket counts partition any record list. -/
theorem countP_bucket_partition (ids : List String) :
    ∀ l : List VulnRecord,
      l.countP (fun r => spec_histogram_bucket ids r == "CRITICAL") +
          l.countP (fun r => spec_histogram_bucket ids r == "HIGH") +
          l.countP (fun r => spec_histogram_bucket ids r == "MEDIUM") +
          l.countP (fun r => spec_histogram_bucket ids r == "LOW") +
          l.countP (fun r => spec_histogram_bucket ids r == "Unknown") =
        l.length := by
  intro l
  induction l with
  | nil => simp
  | cons r t ih =>
    simp only [List.countP_cons, List.length_cons]
    rcases bucket_mem5 ids r with h | h | h | h | h <;> simp [h] <;> omega

/-- C10: the statistics partition the filtered records: the severity
histogram sums to total_ics, the two exploited-tracking counters sum to
total_ics, and total_ics is the length of the filtered list. -/
theorem c10_statistics_partition
    (ics_filtered nvd_cves cisa_kevs : List VulnRecord) :
    histogramSum
        ((aggregate_statistics ics_filtered nvd_cves
          cisa_kevs).severity_distribution) =
      (aggregate_statistics ics_filtered nvd_cves cisa_kevs).total_ics ∧
    (aggregate_statistics ics_filtered nvd_cves cisa_kevs).cisa_kev_count +
        (aggregate_statistics ics_filtered nvd_cves
          cisa_kevs).nvd_only_count =
      (aggregate_statistics ics_filtered nvd_cves cisa_kevs).total_ics ∧
    (aggregate_statistics ics_filtered nvd_cves cisa_kevs).total_ics =
      ics_filtered.length := by
  have htot :
      (aggregate_statistics ics_filtered nvd_cves cisa_kevs).total_ics =
        ics_filtered.length := by
    simp only [aggregate_statistics]
    rw [foldl_step_total]
  refine ⟨?_, ?_, htot⟩
  · rw [htot]
    unfold histogramSum
    simp only [aggregate_statistics]
    rw [foldl_step_sd, foldl_step_sd, foldl_step_sd, foldl_step_sd,
      foldl_step_sd]
    simpa using countP_bucket_partition
      (cisa_kevs.map get_cve_id) ics_filtered
  · rw [htot]
    simp only [aggregate_statistics]
    rw [(foldl_step_tracking _ _ _).1, (foldl_step_tracking _ _ _).2]
    simpa using
      (List.length_eq_countP_add_countP
        (agg_is_known_exploited (cisa_kevs.map get_cve_id))
        ics_filtered).symm

/-- C1 (code bug): the /api/stats aggregation derives its cross-reference
ID set from the date-windowed recent KEV list instead of the full catalog
set the fetch stage builds: a filtered NVD record whose ID is in the full
catalog but whose KEV entry is outside the recent window is counted as not
exploited by the statistics (HIGH bucket, nvd_only), while the dashboard
list annotation over the full-catalog set does flag it. -/
theorem c1_stats_ignore_full_catalog :
    (full_catalog_kev_ids [VulnRecord.kev kevSiemens]).contains
        (get_cve_id (VulnRecord.nvd cveSiemens)) = true ∧
    format_is_known_exploited
        (full_catalog_kev_ids [VulnRecord.kev kevSiemens])
        (VulnRecord.nvd cveSiemens) = true ∧
    (api_stats_pipeline [VulnRecord.nvd cveSiemens] []
        [VulnRecord.kev kevSiemens]).severity_distribution "CRITICAL" = 0 ∧
    (api_stats_pipeline [VulnRecord.nvd cveSiemens] []
        [VulnRecord.kev kevSiemens]).severity_distribution "HIGH" = 1 ∧
    (api_stats_pipeline [VulnRecord.nvd cveSiemens] []
        [VulnRecord.kev kevSiemens]).cisa_kev_count = 0 ∧
    (api_stats_pipeline [VulnRecord.nvd cveSiemens] []
        [VulnRecord.kev kevSiemens]).nvd_only_count = 1 :=
  ⟨rfl, rfl, rfl, rfl, rfl, rfl⟩

/-- C5 counterexample: with a zero-scored first v3.1 entry followed by a
non-zero one, the source returns 0.0 while the claimed rule returns the
later non-zero entry. -/
theorem c5_counterexample :
    _get_nvd_cvss_score cveZeroThenEight = 0 ∧
    claimed_cvss_score cveZeroThenEight = 8 ∧
    _get_nvd_cvss_score cveZeroThenEight ≠
      claimed_cvss_score cveZeroThenEight := by
  refine ⟨rfl, rfl, ?_⟩
  decide

/-- C5 amended: the probe order v3.1, v3.0, v2 holds, but under each scheme
only the first entry is consulted: its non-zero base score is returned,
a zero (or missing) first-entry score falls through to the next scheme, and
the result depends only on the three first-entry scores. -/
theorem c5_amended_first_entry_probe (c : Cve) :
    (firstEntryBaseScore c.metrics.cvssMetricV31 ≠ 0 →
      _get_nvd_cvss_score c = firstEntryBaseScore c.metrics.cvssMetricV31) ∧
    (firstEntryBaseScore c.metrics.cvssMetricV31 = 0 →
      firstEntryBaseScore c.metrics.cvssMetricV30 ≠ 0 →
      _get_nvd_cvss_score c = firstEntryBaseScore c.metrics.cvssMetricV30) ∧
    (firstEntryBaseScore c.metrics.cvssMetricV31 = 0 →
      firstEntryBaseScore c.metrics.cvssMetricV30 = 0 →
      firstEntryBaseScore c.metrics.cvssMetricV2 ≠ 0 →
      _get_nvd_cvss_score c = firstEntryBaseScore c.metrics.cvssMetricV2) ∧
    (firstEntryBaseScore c.metrics.cvssMetricV31 = 0 →
      firstEntryBaseScore c.metrics.cvssMetricV30 = 0 →
      firstEntryBaseScore c.metrics.cvssMetricV2 = 0 →
      _get_nvd_cvss_score c = 0) ∧
    (∀ c2 : Cve,
      firstEntryBaseScore c2.metrics.cvssMetricV31 =
          firstEntryBaseScore c.metrics.cvssMetricV31 →
        firstEntryBaseScore c2.metrics.cvssMetricV30 =
          firstEntryBaseScore c.metrics.cvssMetricV30 →
        firstEntryBaseScore c2.metrics.cvssMetricV2 =
          firstEntryBaseScore c.metrics.cvssMetricV2 →
        _get_nvd_cvss_score c2 = _get_nvd_cvss_score c) := by
  refine ⟨?_, ?_, ?_, ?_, ?_⟩
  · intro h1; simp [_get_nvd_cvss_score, h1]
  · intro h1 h2; simp [_get_nvd_cvss_score, h1, h2]
  · intro h1 h2 h3; simp [_get_nvd_cvss_score, h1, h2, h3]
  · intro h1 h2 h3; simp [_get_nvd_cvss_score, h1, h2, h3]
  · intro c2 e1 e2 e3
    simp only [_get_nvd_cvss_score, e1, e2, e3]

/-- Witness for C5 amended at a concrete record with a non-zero first v3.1
entry. -/
theorem c5_amended_first_entry_probe_witness :
    _get_nvd_cvss_score cveSiemens =
      firstEntryBaseScore cveSiemens.metrics.cvssMetricV31 :=
  (c5_amended_first_entry_probe cveSiemens).1 (by decide)

/-- C8 counterexample: a criteria string with an empty vendor segment: the
source excludes the empty token, while the claimed rule (excluding only
wildcard tokens) keeps it. -/
theorem c8_counterexample :
    _extract_nvd_vendors_products cveEmptyVendor = ["widget"] ∧
    tokensWithRule claimed_criteria_tokens cveEmptyVendor = ["", "widget"] ∧
    _extract_nvd_vendors_products cveEmptyVendor ≠
      tokensWithRule claimed_criteria_tokens cveEmptyVendor := by
  refine ⟨rfl, rfl, ?_⟩
  decide

/-- The conditional singleton appends of the source equal filtering the
two positional tokens by the amended rule. -/
theorem cond_tokens_eq (a b : String) :
    ((if a ≠ "" ∧ a ≠ "*" then [a] else []) ++
        (if b ≠ "" ∧ b ≠ "*" then [b] else [])) =
      ([a, b]).filter (fun t => t ≠ "*" ∧ t ≠ "") := by
  by_cases h1 : a = "" <;> by_cases h2 : a = "*" <;>
    by_cases h3 : b = "" <;> by_cases h4 : b = "*" <;>
    simp_all

/-- The per-criteria token rule of the source is the amended rule. -/
theorem cpe_amended_eq :
    ∀ criteria : String,
      cpeCriteriaTokens criteria = amended_criteria_tokens criteria := by
  intro criteria
  simp only [cpeCriteriaTokens, amended_criteria_tokens]
  by_cases h : (pySplit criteria ':').length ≥ 5
  · rw [if_pos h, if_pos h]
    exact cond_tokens_eq _ _
  · rw [if_neg h, if_neg h]

/-- C8 amended: the configurations walk reads positions 3 and 4 of every
visited criteria string with at least 5 segments, excluding wildcard AND
empty tokens; for an ExploitedEntry the searchable text of the filter is
the description followed by the space-joined token pair
(vendorProject, product). -/
theorem c8_amended_tokens :
    (∀ c : Cve,
      _extract_nvd_vendors_products c =
        tokensWithRule amended_criteria_tokens c) ∧
    (∀ k : Kev,
      searchableTextOf (VulnRecord.kev k) =
        kevFilterDescription k ++ " " ++
          String.intercalate " " [k.vendorProject, k.product]) := by
  constructor
  · intro c
    show tokensWithRule cpeCriteriaTokens c =
      tokensWithRule amended_criteria_tokens c
    rw [funext cpe_amended_eq]
  · intro k
    show kevFilterDescription k ++ " " ++ k.vendorProject ++ " " ++
        k.product =
      kevFilterDescription k ++ " " ++
        String.intercalate " " [k.vendorProject, k.product]
    rw [show String.intercalate " " [k.vendorProject, k.product] =
        k.vendorProject ++ " " ++ k.product from rfl]
    simp [String.append_assoc]

/-- C9 (code bug): the description accessor is not total on malformed
records: a record whose descriptions field is an integer makes the
iteration raise TypeError, which the except clause does not catch, while a
record merely missing fields does return the empty default. -/
theorem c9_description_accessor_not_total :
    Py._extract_nvd_description_py Py.malformedCveObj =
        Except.error Py.PyExc.typeError ∧
    Py._extract_nvd_description_py (Py.PyVal.dict []) =
        Except.ok (Py.PyVal.str "") :=
  ⟨rfl, rfl⟩

end ICSW
